import Mathlib

/-!
Shallow embedding of the BikeRecorder resumable-upload routers.

Source files:
  * `src/server/app/routers/uploads.py`  — database-backed upload sessions
    (`create_upload`, `head_upload`, `patch_upload`, `direct_put_upload`).
  * `src/server/app/routers/tus_upload.py` — TUS filesystem-backed uploads
    (`tus_create_upload`, `tus_check_offset`, `tus_upload_chunk`,
    `tus_delete_upload`).

The repository modules `app.models`, `app.schemas` and `app.services.storage`
are not part of the sources; the definitions that stand in for them are
marked `Modelled from the spec:` and follow the specification's words.

Bytes are modelled as `List Nat`; the external SHA-256 digest is modelled
as a function parameter `H : List Nat → Nat` (only its determinism is used),
with the concrete stand-in `sha256Model` for evaluation.  Each database
handler is viewed per upload session: the `DbState` carries the single
`UploadSession` row the request addresses, the backing partial artifact,
the final artifact location, and the recorded `StoredFile` rows.
-/

/-- Upload lifecycle status, as used by both routers and the data model. -/
inductive UploadStatus where
  | PENDING
  | RECEIVING
  | COMPLETE
  | FAILED
deriving Repr, DecidableEq

/-- Modelled from the spec: `FileType` lives in the missing `app.models`;
the routers only distinguish `VIDEO_MP4` from the rest. -/
inductive FileType where
  | VIDEO_MP4
  | OTHER
deriving Repr, DecidableEq

/-- Error outcomes of the handlers, one constructor per distinct
`HTTPException` raised in the routers (404, 409 complete, 409 offset,
422, 413, 415). -/
inductive Err where
  | NotFound
  | AlreadyTerminal
  | OffsetConflict
  | ChecksumMismatch
  | TooLarge
  | UnsupportedMediaType
deriving Repr, DecidableEq

/-- Modelled from the spec: the `Trip` row of the missing `app.models`,
restricted to the field the routers read (`user_id`), plus its key. -/
structure Trip where
  id : Nat
  user_id : Nat
deriving Repr, DecidableEq

/-- Modelled from the spec: the `Segment` row of the missing `app.models`,
restricted to the fields the routers touch. -/
structure Segment where
  id : Nat
  trip_id : Nat
  file_size_bytes : Option Nat
  sha256 : Option Nat
deriving Repr, DecidableEq

/-- Modelled from the spec: the `UploadSession` row of the missing
`app.models`; per the spec `received_offset` starts at 0 and the id is
generated at creation. -/
structure UploadSession where
  id : Nat
  trip_id : Nat
  segment_id : Nat
  filename : String
  file_type : FileType
  sha256 : Option Nat
  upload_length : Nat
  offset : Nat
  status : UploadStatus
deriving Repr, DecidableEq

/-- Modelled from the spec: the `StoredFile` row recorded for a finalized
artifact (location, content hash, byte size). -/
structure StoredFile where
  segment_id : Nat
  type : FileType
  storage_uri : String
  sha256 : Nat
  bytes : Nat
deriving Repr, DecidableEq

/-- Modelled from the spec: the `UploadCreateRequest` schema of the missing
`app.schemas` (fields as consumed by `create_upload`). -/
structure UploadCreateRequest where
  trip_id : Nat
  segment_id : Nat
  filename : String
  file_type : FileType
  sha256 : Option Nat
  upload_length : Nat
deriving Repr, DecidableEq

/-- The `UploadRead` response schema returned by `create_upload`. -/
structure UploadRead where
  id : Nat
  trip_id : Nat
  segment_id : Nat
  filename : String
  file_type : FileType
  sha256 : Option Nat
  upload_length : Nat
  offset : Nat
  status : UploadStatus
deriving Repr, DecidableEq

/-- Per-session server state for the database-backed router: the relational
rows the handlers read (`trips`, `segments`), the single `UploadSession`
row addressed by the request, the backing partial artifact at
`get_upload_path(id)`, the artifact at the final path, the recorded
`StoredFile` rows, and a counter standing in for fresh id generation. -/
structure DbState where
  trips : Nat → Option Trip
  segments : Nat → Option Segment
  upload : Option UploadSession
  tempBytes : List Nat
  finalFile : Option (List Nat)
  storedFiles : List StoredFile
  nextId : Nat

/-- The ownership test `upload.trip.user_id == current_user.id` used by
`head_upload`, `patch_upload` and `direct_put_upload`. -/
def tripUserOk (st : DbState) (u : UploadSession) (user : Nat) : Bool :=
  match st.trips u.trip_id with
  | some t => t.user_id = user
  | none => false

/-- Modelled from the spec: `write_chunk` of the missing
`app.services.storage`; §4.2 Chunk Writer appends the bytes at a verified
offset and signals OffsetConflict, writing nothing, when the offset does
not equal the artifact's current length. -/
def write_chunk (fileBytes body : List Nat) (offset : Nat) :
    Except Err (List Nat) :=
  if offset = fileBytes.length then .ok (fileBytes ++ body)
  else .error .OffsetConflict

/-- Modelled from the spec: the external SHA-256 hex digest over a byte
stream (`hashlib` / `finalize_upload`); only determinism of the digest is
relied on, so the handlers take the digest function `H` as a parameter.
`sha256Model` is a concrete deterministic stand-in used for evaluation. -/
def sha256Model (bs : List Nat) : Nat :=
  bs.foldl (fun h b => h * 256 + b + 1) 7

/-- The `storage_uri` recorded for a finalized artifact:
`final_path.relative_to(settings.storage_dir)` where
`final_path = storage_dir / "segments" / segment_id / filename`. -/
def storageUri (segment_id : Nat) (filename : String) : String :=
  "segments/" ++ toString segment_id ++ "/" ++ filename

/-- The `StoredFile` row recorded on successful finalization. -/
def mkStoredFile (u : UploadSession) (computed size : Nat) : StoredFile :=
  { segment_id := u.segment_id
    type := u.file_type
    storage_uri := storageUri u.segment_id u.filename
    sha256 := computed
    bytes := size }

/-- The segment update on successful finalization: when the segment exists
and the upload is a video, its size and hash fields are set (lines 115-120
of `uploads.py`); otherwise the row is re-added unchanged. -/
def updateSegment (segs : Nat → Option Segment) (u : UploadSession)
    (computed size : Nat) : Nat → Option Segment :=
  match segs u.segment_id with
  | none => segs
  | some s =>
    if u.file_type = .VIDEO_MP4 then
      fun k => if k = u.segment_id then
          some { s with file_size_bytes := some size, sha256 := some computed }
        else segs k
    else segs

/-- `POST /uploads` (`create_upload`, uploads.py lines 19-51): validates
trip/segment ownership, then creates an `UploadSession` with status
`PENDING` and offset 0.  There is no size validation.  The fresh database
id is modelled by the `nextId` counter. -/
def create_upload (st : DbState) (current_user : Nat)
    (payload : UploadCreateRequest) : DbState × Except Err UploadRead :=
  match st.trips payload.trip_id, st.segments payload.segment_id with
  | some trip, some segment =>
    if segment.trip_id = trip.id ∧ trip.user_id = current_user then
      let u : UploadSession :=
        { id := st.nextId
          trip_id := payload.trip_id
          segment_id := payload.segment_id
          filename := payload.filename
          file_type := payload.file_type
          sha256 := payload.sha256
          upload_length := payload.upload_length
          offset := 0
          status := .PENDING }
      ({ st with upload := some u, nextId := st.nextId + 1 },
       .ok { id := u.id, trip_id := u.trip_id, segment_id := u.segment_id,
             filename := u.filename, file_type := u.file_type,
             sha256 := u.sha256, upload_length := u.upload_length,
             offset := u.offset, status := u.status })
    else (st, .error .NotFound)
  | _, _ => (st, .error .NotFound)

/-- `HEAD /uploads/{id}` (`head_upload`, uploads.py lines 54-66): 404 when
the session is absent or the caller does not own the trip; otherwise
returns the `Upload-Offset` and `Upload-Length` headers. -/
def head_upload (st : DbState) (current_user : Nat) :
    Except Err (Nat × Nat) :=
  match st.upload with
  | none => .error .NotFound
  | some upload =>
    if tripUserOk st upload current_user then
      .ok (upload.offset, upload.upload_length)
    else .error .NotFound

/-- `PATCH /uploads/{id}` (`patch_upload`, uploads.py lines 69-126).
Returns the state after the request together with the outcome: `.ok o`
models the 204 response carrying `Upload-Offset: o`, `.error e` models the
raised `HTTPException` (the state still changed in the checksum-mismatch
branch, as in the source, where the FAILED status is committed before the
422 is raised).  Guard order follows the source: 404, 409 for `COMPLETE`
only, 409 on offset mismatch, early 204 on empty body; then the chunk is
appended, `offset += len(body)`, status set to `RECEIVING`; when
`offset >= upload_length`, finalize computes the hash of the artifact,
moves it to the final path, and compares `computed_sha != upload.sha256`
unconditionally (in particular `some computed ≠ none` when no expected
hash was supplied). -/
def patch_upload (H : List Nat → Nat) (st : DbState) (current_user : Nat)
    (upload_offset : Nat) (body : List Nat) : DbState × Except Err Nat :=
  match st.upload with
  | none => (st, .error .NotFound)
  | some upload =>
    if ¬ tripUserOk st upload current_user then (st, .error .NotFound)
    else if upload.status = .COMPLETE then (st, .error .AlreadyTerminal)
    else if upload.offset ≠ upload_offset then (st, .error .OffsetConflict)
    else if body.isEmpty then (st, .ok upload.offset)
    else
      match write_chunk st.tempBytes body upload.offset with
      | .error e => (st, .error e)
      | .ok temp1 =>
        let upload1 : UploadSession :=
          { upload with offset := upload.offset + body.length,
                        status := .RECEIVING }
        let st1 := { st with upload := some upload1, tempBytes := temp1 }
        if upload.upload_length ≤ upload1.offset then
          let computed := H temp1
          let size := temp1.length
          let st2 := { st1 with tempBytes := [], finalFile := some temp1 }
          if some computed ≠ upload1.sha256 then
            ({ st2 with finalFile := none,
                        upload := some { upload1 with status := .FAILED } },
             .error .ChecksumMismatch)
          else
            ({ st2 with
                storedFiles := st2.storedFiles ++ [mkStoredFile upload1 computed size],
                segments := updateSegment st2.segments upload1 computed size,
                upload := some { upload1 with status := .COMPLETE } },
             .ok upload1.offset)
        else (st1, .ok upload1.offset)

/-- `PUT /uploads/direct/{id}` (`direct_put_upload`, uploads.py lines
230-290): writes the whole request body to a temporary file, finalizes it,
and — unlike `patch_upload` — guards the checksum comparison with
`if upload.sha256 and computed_sha != upload.sha256`, so a session created
without an expected hash always completes. -/
def direct_put_upload (H : List Nat → Nat) (st : DbState)
    (current_user : Nat) (body : List Nat) :
    DbState × Except Err (Nat × Nat) :=
  match st.upload with
  | none => (st, .error .NotFound)
  | some upload =>
    if ¬ tripUserOk st upload current_user then (st, .error .NotFound)
    else
      let computed := H body
      let size := body.length
      if upload.sha256.isSome ∧ some computed ≠ upload.sha256 then
        ({ st with finalFile := none,
                   upload := some { upload with status := .FAILED } },
         .error .ChecksumMismatch)
      else
        ({ st with
            finalFile := some body,
            storedFiles := st.storedFiles ++ [mkStoredFile upload computed size],
            segments := updateSegment st.segments upload computed size,
            upload := some { upload with status := .COMPLETE } },
         .ok (computed, size))

/-- The `received_offset` of the session slot (0 when no session exists). -/
def sessionOffset (st : DbState) : Nat :=
  match st.upload with
  | some u => u.offset
  | none => 0

/-- The `declared_length` of the session slot (0 when no session exists). -/
def sessionLength (st : DbState) : Nat :=
  match st.upload with
  | some u => u.upload_length
  | none => 0

/-- The status of the session slot. -/
def sessionStatus (st : DbState) : Option UploadStatus :=
  match st.upload with
  | some u => some u.status
  | none => none

/-- A client driving `patch_upload` with correct successive offsets: each
call claims the session's current offset and sends the next payload. -/
def runChunks (H : List Nat → Nat) (user : Nat) :
    List (List Nat) → DbState → DbState
  | [], st => st
  | c :: cs, st =>
    runChunks H user cs (patch_upload H st user (sessionOffset st) c).1

/-! The TUS filesystem-backed router (`tus_upload.py`).  State is the
uploads directory: for each upload id, the partial file's bytes and the
metadata file (declared length on the first line, then the raw
`Upload-Metadata` header if present). -/

/-- The partial file and metadata file stored for one TUS upload id. -/
structure TusUpload where
  fileBytes : List Nat
  metaLength : Nat
  metaExtra : Option String
deriving Repr, DecidableEq

/-- The uploads directory, keyed by upload id (`none` = neither the file
nor its metadata exists). -/
def TusState : Type := String → Option TusUpload

/-- `MAX_FILE_SIZE = 1024 * 1024 * 1024` (tus_upload.py line 16). -/
def MAX_FILE_SIZE : Nat := 1024 * 1024 * 1024

/-- Python `f"{upload_metadata}"` formatting of an optional header:
`None` renders as the string `"None"`. -/
def optHeaderStr : Option String → String
  | none => "None"
  | some s => s

/-- Modelled from the spec: the external `hashlib.sha256(...).hexdigest()`
over a string; a concrete deterministic stand-in used for evaluation
(only determinism of the digest is relied on). -/
def hexDigestModel (s : String) : String := s

/-- The upload id generated by `tus_create_upload` (lines 62-64):
the first 16 characters of the hex digest of
`f"{current_user.id}-{upload_length}-{upload_metadata}"`. -/
def tusUploadId (Hs : String → String) (userId upload_length : Nat)
    (meta : Option String) : String :=
  (Hs (toString userId ++ "-" ++ toString upload_length ++ "-" ++
       optHeaderStr meta)).take 16

/-- `POST /tus/files` (`tus_create_upload`, tus_upload.py lines 47-91):
rejects `Upload-Length > MAX_FILE_SIZE` with 413 before touching storage;
otherwise derives the upload id from the request parameters, (re)writes
the metadata file, and `touch`es the upload file — which keeps the
existing content when a file for that id already exists.  Returns the id
and `Upload-Offset: 0`. -/
def tus_create_upload (Hs : String → String) (st : TusState)
    (userId upload_length : Nat) (meta : Option String) :
    TusState × Except Err (String × Nat) :=
  if MAX_FILE_SIZE < upload_length then (st, .error .TooLarge)
  else
    let id := tusUploadId Hs userId upload_length meta
    let file : List Nat :=
      match st id with
      | some u => u.fileBytes
      | none => []
    let entry : TusUpload :=
      { fileBytes := file, metaLength := upload_length, metaExtra := meta }
    (fun k => if k = id then some entry else st k, .ok (id, 0))

/-- `HEAD /tus/files/{id}` (`tus_check_offset`, tus_upload.py lines
111-141): 404 when the upload file or its metadata is missing; otherwise
returns the file's current size as `Upload-Offset` and the declared
length from the metadata as `Upload-Length`.  The authenticated caller
`userId` is received but never compared with anything. -/
def tus_check_offset (st : TusState) (userId : Nat) (upload_id : String) :
    Except Err (Nat × Nat) :=
  match st upload_id with
  | none => .error .NotFound
  | some u => .ok (u.fileBytes.length, u.metaLength)

/-- `PATCH /tus/files/{id}` (`tus_upload_chunk`, tus_upload.py lines
144-205): 404 when the upload is missing, 415 on a wrong Content-Type,
409 when the claimed `Upload-Offset` differs from the file's current
size; otherwise appends the body (`open(..., 'ab')`) and returns the new
file size.  Reaching the declared length only prints a message — no
state change marks completion.  The caller `userId` is never checked. -/
def tus_upload_chunk (st : TusState) (userId : Nat) (upload_id : String)
    (upload_offset : Nat) (content_type : String) (body : List Nat) :
    TusState × Except Err Nat :=
  match st upload_id with
  | none => (st, .error .NotFound)
  | some u =>
    if content_type ≠ "application/offset+octet-stream" then
      (st, .error .UnsupportedMediaType)
    else if u.fileBytes.length ≠ upload_offset then
      (st, .error .OffsetConflict)
    else
      let file1 := u.fileBytes ++ body
      (fun k => if k = upload_id then some { u with fileBytes := file1 }
                else st k,
       .ok file1.length)

/-- `DELETE /tus/files/{id}` (`tus_delete_upload`, tus_upload.py lines
208-230): unlinks the upload file and metadata when they exist; always
succeeds (204), also for a nonexistent id. -/
def tus_delete_upload (st : TusState) (userId : Nat) (upload_id : String) :
    TusState × Except Err Unit :=
  (fun k => if k = upload_id then none else st k, .ok ())

/-! Concrete fixtures used by witnesses and counterexamples. -/

/-- A demo TUS uploads directory holding one upload. -/
def demoTus : TusState :=
  fun k => if k = "fileA" then
      some { fileBytes := [1, 2], metaLength := 5, metaExtra := none }
    else none

/-- A demo trips table: trip 1 owned by user 1. -/
def demoTrips : Nat → Option Trip :=
  fun k => if k = 1 then some { id := 1, user_id := 1 } else none

/-- A demo segments table: segment 2 belonging to trip 1. -/
def demoSegments : Nat → Option Segment :=
  fun k => if k = 2 then
      some { id := 2, trip_id := 1, file_size_bytes := none, sha256 := none }
    else none

/-- A demo upload session on trip 1 / segment 2. -/
def demoSession (sha : Option Nat) (len off : Nat) (stat : UploadStatus) :
    UploadSession :=
  { id := 5, trip_id := 1, segment_id := 2, filename := "a.mp4",
    file_type := .VIDEO_MP4, sha256 := sha, upload_length := len,
    offset := off, status := stat }

/-- A demo database state holding one session and an empty uploads dir. -/
def demoState (sha : Option Nat) (len off : Nat) (stat : UploadStatus)
    (temp : List Nat) : DbState :=
  { trips := demoTrips, segments := demoSegments,
    upload := some (demoSession sha len off stat),
    tempBytes := temp, finalFile := none, storedFiles := [], nextId := 6 }

/-! Helper lemmas evaluating one `patch_upload` call on its main paths. -/

/-- Helper: a nonempty chunk at the correct offset that does not reach the
declared length appends the bytes, advances the offset and sets status
`RECEIVING`. -/
theorem patch_upload_step (H : List Nat → Nat) (st : DbState)
    (u : UploadSession) (user : Nat) (body : List Nat)
    (hu : st.upload = some u)
    (hown : tripUserOk st u user = true)
    (hstat : u.status = .PENDING ∨ u.status = .RECEIVING)
    (htemp : st.tempBytes.length = u.offset)
    (hbody : body ≠ [])
    (hlt : u.offset + body.length < u.upload_length) :
    patch_upload H st user u.offset body =
      ({ st with
          upload := some { u with offset := u.offset + body.length,
                                  status := .RECEIVING },
          tempBytes := st.tempBytes ++ body },
       .ok (u.offset + body.length)) := by
  have hbe : body.isEmpty = false := by
    cases body with
    | nil => exact absurd rfl hbody
    | cons b bs => rfl
  have hcomp : ¬ u.status = UploadStatus.COMPLETE := by
    rcases hstat with h | h <;> simp [h]
  have hnle : ¬ u.upload_length ≤ u.offset + body.length := Nat.not_le.mpr hlt
  simp [patch_upload, hu, hown, hcomp, hbe, write_chunk, htemp, hnle]

/-- Helper: a nonempty chunk at the correct offset that reaches the
declared length on a session whose expected hash matches triggers a
successful finalize: status `COMPLETE`, artifact moved, `StoredFile`
recorded. -/
theorem patch_upload_final_ok (H : List Nat → Nat) (st : DbState)
    (u : UploadSession) (user : Nat) (body : List Nat)
    (hu : st.upload = some u)
    (hown : tripUserOk st u user = true)
    (hstat : u.status = .PENDING ∨ u.status = .RECEIVING)
    (htemp : st.tempBytes.length = u.offset)
    (hbody : body ≠ [])
    (hfill : u.upload_length ≤ u.offset + body.length)
    (hsha : u.sha256 = some (H (st.tempBytes ++ body))) :
    patch_upload H st user u.offset body =
      ({ st with
          upload := some { u with offset := u.offset + body.length,
                                  status := .COMPLETE },
          tempBytes := [],
          finalFile := some (st.tempBytes ++ body),
          storedFiles := st.storedFiles ++
            [mkStoredFile u (H (st.tempBytes ++ body))
              (st.tempBytes ++ body).length],
          segments := updateSegment st.segments
            { u with offset := u.offset + body.length, status := .RECEIVING }
            (H (st.tempBytes ++ body)) (st.tempBytes ++ body).length },
       .ok (u.offset + body.length)) := by
  have hbe : body.isEmpty = false := by
    cases body with
    | nil => exact absurd rfl hbody
    | cons b bs => rfl
  have hcomp : ¬ u.status = UploadStatus.COMPLETE := by
    rcases hstat with h | h <;> simp [h]
  simp [patch_upload, hu, hown, hcomp, hbe, write_chunk, htemp, hfill, hsha,
        mkStoredFile]

/-- Helper: any AcceptChunk whose claimed offset differs from the session
offset on a non-`COMPLETE` session is rejected with OffsetConflict and
leaves the state untouched. -/
theorem patch_upload_conflict (H : List Nat → Nat) (st : DbState)
    (u : UploadSession) (user claimed : Nat) (body : List Nat)
    (hu : st.upload = some u)
    (hown : tripUserOk st u user = true)
    (hcomp : u.status ≠ .COMPLETE)
    (hne : u.offset ≠ claimed) :
    patch_upload H st user claimed body = (st, .error .OffsetConflict) := by
  simp [patch_upload, hu, hown, hcomp, hne]

/-- Helper: a completing chunk whose computed digest does not equal the
stored `sha256` field commits the advanced offset and the FAILED status,
deletes the moved artifact, records nothing, and raises 422. -/
theorem patch_upload_final_mismatch (H : List Nat → Nat) (st : DbState)
    (u : UploadSession) (user : Nat) (body : List Nat)
    (hu : st.upload = some u)
    (hown : tripUserOk st u user = true)
    (hstat : u.status = .PENDING ∨ u.status = .RECEIVING)
    (htemp : st.tempBytes.length = u.offset)
    (hbody : body ≠ [])
    (hfill : u.upload_length ≤ u.offset + body.length)
    (hmis : some (H (st.tempBytes ++ body)) ≠ u.sha256) :
    patch_upload H st user u.offset body =
      ({ st with
          upload := some { u with offset := u.offset + body.length,
                                  status := .FAILED },
          tempBytes := [],
          finalFile := none },
       .error .ChecksumMismatch) := by
  have hbe : body.isEmpty = false := by
    cases body with
    | nil => exact absurd rfl hbody
    | cons b bs => rfl
  have hcomp : ¬ u.status = UploadStatus.COMPLETE := by
    rcases hstat with h | h <;> simp [h]
  simp [patch_upload, hu, hown, hcomp, hbe, write_chunk, htemp, hfill, hmis]

/-- Helper: `received_offset` never decreases across a `patch_upload`
call, whatever the claimed offset and payload. -/
theorem patch_upload_offset_le (H : List Nat → Nat) (st : DbState)
    (user off : Nat) (body : List Nat) :
    sessionOffset st ≤ sessionOffset (patch_upload H st user off body).1 := by
  cases hu : st.upload with
  | none => simp [patch_upload, sessionOffset, hu]
  | some u =>
    by_cases hown : tripUserOk st u user
    · by_cases hcomp : u.status = UploadStatus.COMPLETE
      · simp [patch_upload, sessionOffset, hu, hown, hcomp]
      · by_cases hoff : u.offset = off
        · subst hoff
          by_cases hbe : body.isEmpty = true
          · simp [patch_upload, sessionOffset, hu, hown, hcomp, hbe]
          · by_cases hw : u.offset = st.tempBytes.length
            · by_cases hfin : u.upload_length ≤ u.offset + body.length
              · by_cases hsha : some (H (st.tempBytes ++ body)) = u.sha256
                · simp [patch_upload, sessionOffset, hu, hown, hcomp,
                        hbe, write_chunk, ← hw, hfin, hsha, Nat.le_add_right]
                · simp [patch_upload, sessionOffset, hu, hown, hcomp,
                        hbe, write_chunk, ← hw, hfin, hsha, Nat.le_add_right]
              · simp [patch_upload, sessionOffset, hu, hown, hcomp,
                      hbe, write_chunk, ← hw, hfin, Nat.le_add_right]
            · simp [patch_upload, sessionOffset, hu, hown, hcomp, hbe,
                    write_chunk, hw]
        · simp [patch_upload, sessionOffset, hu, hown, hcomp, hoff]
    · simp [patch_upload, sessionOffset, hu, hown]

/-- C2 (amended): `received_offset` starts at 0 when a session is created
and never decreases across AcceptChunk calls; the code does not enforce
the upper bound `received_offset ≤ declared_length` when a payload
overshoots the remaining bytes. -/
theorem offset_starts_zero_and_monotone :
    (∀ (H : List Nat → Nat) (st : DbState) (user off : Nat) (body : List Nat),
        sessionOffset st ≤ sessionOffset (patch_upload H st user off body).1) ∧
    (∀ (st : DbState) (user : Nat) (p : UploadCreateRequest),
        match (create_upload st user p).2 with
        | .ok r => r.offset = 0 ∧ r.status = .PENDING ∧
            r.upload_length = p.upload_length
        | .error e => e = .NotFound) := by
  constructor
  · exact patch_upload_offset_le
  · intro st user p
    unfold create_upload
    cases ht : st.trips p.trip_id with
    | none => simp
    | some trip =>
      cases hs : st.segments p.segment_id with
      | none => simp
      | some seg =>
        by_cases hc : seg.trip_id = trip.id ∧ trip.user_id = user
        · simp [hc]
        · simp [hc]

/-- C2 counterexample: from a valid PENDING session with
`declared_length = 1`, one AcceptChunk with a 2-byte payload at offset 0
leaves `received_offset = 2 > declared_length = 1`: the invariant
`received_offset ≤ declared_length` is not preserved for arbitrary
payload sizes. -/
theorem received_offset_can_exceed_declared_length :
    sessionOffset (patch_upload sha256Model
        (demoState none 1 0 .PENDING []) 1 0 [0, 0]).1 = 2 ∧
    sessionLength (patch_upload sha256Model
        (demoState none 1 0 .PENDING []) 1 0 [0, 0]).1 = 1 :=
  ⟨rfl, rfl⟩

/-- C3 (amended): on a `COMPLETE` session every AcceptChunk request fails
with AlreadyTerminal and leaves the state (offset, status, backing
artifact) unchanged, whatever the claimed offset and payload; the guard
does not cover `FAILED` sessions. -/
theorem complete_session_rejects_chunks (H : List Nat → Nat) (st : DbState)
    (u : UploadSession) (user off : Nat) (body : List Nat)
    (hu : st.upload = some u)
    (hown : tripUserOk st u user = true)
    (hc : u.status = .COMPLETE) :
    patch_upload H st user off body = (st, .error .AlreadyTerminal) := by
  simp [patch_upload, hu, hown, hc]

/-- C3 witness: the COMPLETE-session rejection at a concrete input. -/
theorem complete_session_rejects_chunks_witness :
    (demoState none 1 1 .COMPLETE []).upload
      = some (demoSession none 1 1 .COMPLETE) ∧
    patch_upload sha256Model (demoState none 1 1 .COMPLETE []) 1 0 [7] =
      (demoState none 1 1 .COMPLETE [], .error .AlreadyTerminal) :=
  ⟨rfl, complete_session_rejects_chunks sha256Model _ _ 1 0 [7] rfl rfl rfl⟩

/-- C3 counterexample: a `FAILED` session is not rejected by the terminal
guard — a zero-byte AcceptChunk at the current offset succeeds with 204
instead of failing with AlreadyTerminal. -/
theorem failed_session_chunk_not_rejected :
    (patch_upload sha256Model (demoState none 1 1 .FAILED []) 1 1 []).2
      = .ok 1 :=
  rfl

/-- C4: AcceptChunk with a claimed offset different from `received_offset`
on a non-terminal session always fails with OffsetConflict and mutates
nothing; in particular a duplicate retransmission of a chunk whose first
transmission already advanced the offset is rejected with OffsetConflict
(no double-application). -/
theorem stale_offset_rejected (H : List Nat → Nat) (st : DbState)
    (u : UploadSession) (user : Nat) (body : List Nat)
    (hu : st.upload = some u)
    (hown : tripUserOk st u user = true)
    (hstat : u.status = .PENDING ∨ u.status = .RECEIVING)
    (htemp : st.tempBytes.length = u.offset)
    (hbody : body ≠ [])
    (hlt : u.offset + body.length < u.upload_length) :
    (∀ claimed, claimed ≠ u.offset →
        patch_upload H st user claimed body = (st, .error .OffsetConflict)) ∧
    patch_upload H (patch_upload H st user u.offset body).1 user u.offset body
      = ((patch_upload H st user u.offset body).1, .error .OffsetConflict) := by
  have hcomp : u.status ≠ UploadStatus.COMPLETE := by
    rcases hstat with h | h <;> simp [h]
  refine ⟨fun claimed hne =>
    patch_upload_conflict H st u user claimed body hu hown hcomp
      (fun h => hne h.symm), ?_⟩
  have hstep := patch_upload_step H st u user body hu hown hstat htemp hbody hlt
  rw [hstep]
  have hpos : 0 < body.length := List.length_pos.mpr hbody
  have hne2 : ({ u with offset := u.offset + body.length,
                        status := UploadStatus.RECEIVING } :
      UploadSession).offset ≠ u.offset := by
    show u.offset + body.length ≠ u.offset
    omega
  exact patch_upload_conflict H _ _ user u.offset body rfl hown (by simp) hne2

/-- C4 witness: a stale claimed offset and a duplicate retransmission at a
concrete input. -/
theorem stale_offset_rejected_witness :
    (demoState none 5 0 .PENDING []).upload
      = some (demoSession none 5 0 .PENDING) ∧
    patch_upload sha256Model (demoState none 5 0 .PENDING []) 1 1 [3] =
      (demoState none 5 0 .PENDING [], .error .OffsetConflict) ∧
    patch_upload sha256Model
        (patch_upload sha256Model (demoState none 5 0 .PENDING []) 1 0 [3]).1
        1 0 [3]
      = ((patch_upload sha256Model (demoState none 5 0 .PENDING []) 1 0 [3]).1,
         .error .OffsetConflict) := by
  have h := stale_offset_rejected sha256Model (demoState none 5 0 .PENDING [])
    (demoSession none 5 0 .PENDING) 1 [3] rfl rfl (Or.inl rfl) rfl
    (by decide) (by decide)
  exact ⟨rfl, h.1 1 (by decide), h.2⟩

/-- C5 (code bug): at the failing input — a session created without an
expected hash (`sha256 = none`) receiving its one completing chunk —
`patch_upload` compares the computed digest to the absent expected hash
unconditionally, so finalize raises ChecksumMismatch and marks the
session FAILED with no stored artifact, while `direct_put_upload` guards
the comparison (`if upload.sha256 and ...`) and completes the very same
session. -/
theorem patch_upload_none_sha_checksum_bug :
    (patch_upload sha256Model (demoState none 1 0 .PENDING []) 1 0 [0]).2
      = .error .ChecksumMismatch ∧
    sessionStatus
        (patch_upload sha256Model (demoState none 1 0 .PENDING []) 1 0 [0]).1
      = some .FAILED ∧
    (patch_upload sha256Model
        (demoState none 1 0 .PENDING []) 1 0 [0]).1.storedFiles = [] ∧
    (direct_put_upload sha256Model (demoState none 1 0 .PENDING []) 1 [0]).2
      = .ok (sha256Model [0], 1) ∧
    sessionStatus
        (direct_put_upload sha256Model (demoState none 1 0 .PENDING []) 1 [0]).1
      = some .COMPLETE :=
  ⟨rfl, rfl, rfl, rfl, rfl⟩

/-- Helper: evaluation of a TUS chunk upload at the correct offset with
the right Content-Type: the body is appended and the new size returned. -/
theorem tus_upload_chunk_eval (tst : TusState) (tu : TusUpload)
    (tid : String) (tuser off : Nat) (body : List Nat)
    (htu : tst tid = some tu) (hoff : tu.fileBytes.length = off) :
    tus_upload_chunk tst tuser tid off "application/offset+octet-stream" body
      = (fun k => if k = tid then
            some { tu with fileBytes := tu.fileBytes ++ body }
          else tst k,
         .ok (tu.fileBytes ++ body).length) := by
  unfold tus_upload_chunk
  rw [htu]
  simp [hoff]

/-- C9: a zero-byte AcceptChunk at the session's current offset succeeds,
re-reports the unchanged offset, and leaves the whole state unchanged, in
both the database-backed handler and the TUS handler. -/
theorem zero_byte_chunk_noop (H : List Nat → Nat) (st : DbState)
    (u : UploadSession) (user : Nat)
    (tst : TusState) (tu : TusUpload) (tid : String) (tuser : Nat)
    (hu : st.upload = some u)
    (hown : tripUserOk st u user = true)
    (hstat : u.status = .PENDING ∨ u.status = .RECEIVING)
    (htu : tst tid = some tu) :
    patch_upload H st user u.offset [] = (st, .ok u.offset) ∧
    tus_upload_chunk tst tuser tid tu.fileBytes.length
      "application/offset+octet-stream" [] = (tst, .ok tu.fileBytes.length) := by
  have hcomp : ¬ u.status = UploadStatus.COMPLETE := by
    rcases hstat with h | h <;> simp [h]
  constructor
  · simp [patch_upload, hu, hown, hcomp]
  · obtain ⟨fb, ml, me⟩ := tu
    rw [tus_upload_chunk_eval tst ⟨fb, ml, me⟩ tid tuser fb.length [] htu rfl]
    refine Prod.ext ?_ ?_
    · funext k
      by_cases hk : k = tid
      · subst hk
        simp [htu]
      · simp [hk]
    · simp

/-- C9 witness: the zero-byte no-op at concrete inputs of both handlers. -/
theorem zero_byte_chunk_noop_witness :
    (demoState none 3 1 .RECEIVING [9]).upload
      = some (demoSession none 3 1 .RECEIVING) ∧
    demoTus "fileA" = some { fileBytes := [1, 2], metaLength := 5,
                             metaExtra := none } ∧
    patch_upload sha256Model (demoState none 3 1 .RECEIVING [9]) 1 1 [] =
      (demoState none 3 1 .RECEIVING [9], .ok 1) ∧
    tus_upload_chunk demoTus 4 "fileA" 2 "application/offset+octet-stream" []
      = (demoTus, .ok 2) := by
  have h := zero_byte_chunk_noop sha256Model (demoState none 3 1 .RECEIVING [9])
    (demoSession none 3 1 .RECEIVING) 1 demoTus
    { fileBytes := [1, 2], metaLength := 5, metaExtra := none } "fileA" 4
    rfl rfl (Or.inr rfl) rfl
  exact ⟨rfl, rfl, h.1, h.2⟩

/-- Helper: evaluation of `head_upload` on an existing owned session. -/
theorem head_upload_eval (st : DbState) (u : UploadSession) (user : Nat)
    (hu : st.upload = some u) (hown : tripUserOk st u user = true) :
    head_upload st user = .ok (u.offset, u.upload_length) := by
  simp [head_upload, hu, hown]

/-- C10: when the completing chunk makes `received_offset` reach exactly
`declared_length` and the computed hash differs from the expected one,
the session is marked FAILED but the offset is not rolled back: it stays
at `declared_length`, a subsequent QueryOffset reports
offset = declared_length, and no artifact is stored. -/
theorem checksum_failure_keeps_full_offset (H : List Nat → Nat)
    (st : DbState) (u : UploadSession) (user : Nat) (body : List Nat)
    (hu : st.upload = some u)
    (hown : tripUserOk st u user = true)
    (hstat : u.status = .PENDING ∨ u.status = .RECEIVING)
    (htemp : st.tempBytes.length = u.offset)
    (hbody : body ≠ [])
    (hfill : u.offset + body.length = u.upload_length)
    (hmis : some (H (st.tempBytes ++ body)) ≠ u.sha256) :
    (patch_upload H st user u.offset body).2 = .error .ChecksumMismatch ∧
    sessionStatus (patch_upload H st user u.offset body).1 = some .FAILED ∧
    sessionOffset (patch_upload H st user u.offset body).1 = u.upload_length ∧
    head_upload (patch_upload H st user u.offset body).1 user
      = .ok (u.upload_length, u.upload_length) ∧
    (patch_upload H st user u.offset body).1.storedFiles = st.storedFiles ∧
    (patch_upload H st user u.offset body).1.finalFile = none := by
  have heq := patch_upload_final_mismatch H st u user body hu hown hstat htemp
    hbody (le_of_eq hfill.symm) hmis
  rw [heq]
  refine ⟨rfl, rfl, ?_, ?_, rfl, rfl⟩
  · simp [sessionOffset, hfill]
  · show head_upload
        ({ st with
            upload := some { u with offset := u.offset + body.length,
                                    status := UploadStatus.FAILED },
            tempBytes := [], finalFile := none } : DbState) user
      = .ok (u.upload_length, u.upload_length)
    rw [head_upload_eval
      ({ st with
          upload := some { u with offset := u.offset + body.length,
                                  status := UploadStatus.FAILED },
          tempBytes := [], finalFile := none } : DbState)
      { u with offset := u.offset + body.length,
               status := UploadStatus.FAILED }
      user rfl hown]
    simp [hfill]

/-- C10 witness: a concrete checksum mismatch at completion leaving the
offset at the declared length. -/
theorem checksum_failure_keeps_full_offset_witness :
    some (sha256Model [0]) ≠ (demoSession (some 0) 1 0 .PENDING).sha256 ∧
    head_upload
        (patch_upload sha256Model
          (demoState (some 0) 1 0 .PENDING []) 1 0 [0]).1 1
      = .ok (1, 1) := by
  have h := checksum_failure_keeps_full_offset sha256Model
    (demoState (some 0) 1 0 .PENDING []) (demoSession (some 0) 1 0 .PENDING)
    1 [0] rfl rfl (Or.inl rfl) rfl (by decide) rfl (by decide)
  exact ⟨by decide, h.2.2.2.1⟩

/-- C6 (amended): the TUS Create validates `Upload-Length ≤ MAX_FILE_SIZE`,
failing with 413 TooLarge before touching storage, and otherwise returns
the derived id with offset 0; the database-backed Create performs no
maximum-size validation — any declared length yields a PENDING session at
offset 0 (its only failure is NotFound for a bad trip/segment/owner). -/
theorem create_size_validation :
    (∀ (Hs : String → String) (st : TusState) (user l : Nat)
        (m : Option String), MAX_FILE_SIZE < l →
        tus_create_upload Hs st user l m = (st, .error .TooLarge)) ∧
    (∀ (Hs : String → String) (st : TusState) (user l : Nat)
        (m : Option String), l ≤ MAX_FILE_SIZE →
        (tus_create_upload Hs st user l m).2
          = .ok (tusUploadId Hs user l m, 0)) ∧
    (∀ (st : DbState) (user : Nat) (p : UploadCreateRequest),
        match (create_upload st user p).2 with
        | .ok r => r.offset = 0 ∧ r.status = .PENDING ∧
            r.upload_length = p.upload_length
        | .error e => e = .NotFound) := by
  refine ⟨?_, ?_, ?_⟩
  · intro Hs st user l m h
    simp [tus_create_upload, h]
  · intro Hs st user l m h
    simp [tus_create_upload, Nat.not_lt.mpr h]
  · intro st user p
    unfold create_upload
    cases ht : st.trips p.trip_id with
    | none => simp
    | some trip =>
      cases hs : st.segments p.segment_id with
      | none => simp
      | some seg =>
        by_cases hc : seg.trip_id = trip.id ∧ trip.user_id = user
        · simp [hc]
        · simp [hc]

/-- C6 witness: the TUS size guard at concrete lengths. -/
theorem create_size_validation_witness :
    MAX_FILE_SIZE < MAX_FILE_SIZE + 1 ∧
    tus_create_upload hexDigestModel (fun _ => none) 1 (MAX_FILE_SIZE + 1) none
      = ((fun _ => none), .error .TooLarge) ∧
    (tus_create_upload hexDigestModel (fun _ => none) 1 10 none).2
      = .ok (tusUploadId hexDigestModel 1 10 none, 0) :=
  ⟨Nat.lt_succ_self _,
   create_size_validation.1 hexDigestModel (fun _ => none) 1 (MAX_FILE_SIZE + 1)
     none (Nat.lt_succ_self _),
   create_size_validation.2.1 hexDigestModel (fun _ => none) 1 10 none
     (by decide)⟩

/-- C6 counterexample: the database-backed Create endpoint has no size
validation — a request whose declared length exceeds the configured TUS
maximum is accepted, returning a PENDING session at offset 0 instead of
failing with TooLarge. -/
theorem create_upload_accepts_any_length :
    (create_upload (demoState none 1 0 .PENDING []) 1
        { trip_id := 1, segment_id := 2, filename := "big.mp4",
          file_type := .VIDEO_MP4, sha256 := none,
          upload_length := MAX_FILE_SIZE + 1 }).2
      = .ok { id := 6, trip_id := 1, segment_id := 2, filename := "big.mp4",
              file_type := .VIDEO_MP4, sha256 := none,
              upload_length := MAX_FILE_SIZE + 1, offset := 0,
              status := .PENDING } :=
  rfl

/-- C7 (amended): the database-backed QueryOffset (HEAD) and AcceptChunk
(PATCH) fail with NotFound when the session is absent or the caller is
not the owner, and a successful QueryOffset returns the current
`received_offset` and `declared_length`; the TUS QueryOffset checks only
that the upload exists — its result never depends on the caller. -/
theorem query_offset_auth :
    (∀ (st : DbState) (user : Nat), st.upload = none →
        head_upload st user = .error .NotFound) ∧
    (∀ (H : List Nat → Nat) (st : DbState) (u : UploadSession)
        (user off : Nat) (body : List Nat),
        st.upload = some u → tripUserOk st u user = false →
        head_upload st user = .error .NotFound ∧
        patch_upload H st user off body = (st, .error .NotFound)) ∧
    (∀ (st : DbState) (u : UploadSession) (user : Nat),
        st.upload = some u → tripUserOk st u user = true →
        head_upload st user = .ok (u.offset, u.upload_length)) ∧
    (∀ (tst : TusState) (u1 u2 : Nat) (tid : String),
        tus_check_offset tst u1 tid = tus_check_offset tst u2 tid) := by
  refine ⟨?_, ?_, ?_, ?_⟩
  · intro st user hu
    simp [head_upload, hu]
  · intro H st u user off body hu hown
    constructor
    · simp [head_upload, hu, hown]
    · simp [patch_upload, hu, hown]
  · intro st u user hu hown
    exact head_upload_eval st u user hu hown
  · intro tst u1 u2 tid
    rfl

/-- C7 witness: NotFound for a non-owner and a successful HEAD for the
owner at a concrete session. -/
theorem query_offset_auth_witness :
    (demoState none 3 1 .RECEIVING []).upload
      = some (demoSession none 3 1 .RECEIVING) ∧
    tripUserOk (demoState none 3 1 .RECEIVING [])
      (demoSession none 3 1 .RECEIVING) 2 = false ∧
    head_upload (demoState none 3 1 .RECEIVING []) 2 = .error .NotFound ∧
    head_upload (demoState none 3 1 .RECEIVING []) 1 = .ok (1, 3) :=
  ⟨rfl, rfl,
   (query_offset_auth.2.1 sha256Model (demoState none 3 1 .RECEIVING [])
     (demoSession none 3 1 .RECEIVING) 2 0 [] rfl rfl).1,
   query_offset_auth.2.2.1 (demoState none 3 1 .RECEIVING [])
     (demoSession none 3 1 .RECEIVING) 1 rfl rfl⟩

/-- C7 counterexample: the TUS QueryOffset performs no ownership check —
an upload created by user 1 is successfully queried by user 2, returning
the offset and declared length instead of failing with NotFound. -/
theorem tus_head_ignores_owner :
    (tus_create_upload hexDigestModel (fun _ => none) 1 10 none).2
      = .ok ("1-10-None", 0) ∧
    tus_check_offset
        (tus_create_upload hexDigestModel (fun _ => none) 1 10 none).1
        2 "1-10-None"
      = .ok (0, 10) :=
  ⟨rfl, rfl⟩

/-- Helper: a TUS create above the size limit is rejected untouched. -/
theorem tus_create_upload_toolarge (Hs : String → String) (st : TusState)
    (user l : Nat) (m : Option String) (hl : MAX_FILE_SIZE < l) :
    tus_create_upload Hs st user l m = (st, .error .TooLarge) := by
  unfold tus_create_upload
  rw [if_pos hl]

/-- Helper: evaluation of a TUS create below the size limit: the id is
derived from the parameters, the metadata is (re)written, and `touch`
keeps the bytes of an already existing file for that id. -/
theorem tus_create_upload_eval (Hs : String → String) (st : TusState)
    (user l : Nat) (m : Option String) (hl : ¬ MAX_FILE_SIZE < l) :
    tus_create_upload Hs st user l m =
      (fun k => if k = tusUploadId Hs user l m then
          some { fileBytes :=
                   (match st (tusUploadId Hs user l m) with
                    | some u => u.fileBytes
                    | none => ([] : List Nat)),
                 metaLength := l, metaExtra := m }
        else st k,
       .ok (tusUploadId Hs user l m, 0)) := by
  unfold tus_create_upload
  rw [if_neg hl]

/-- C8 (amended): the TUS upload id is a pure function of the request
parameters (owner id, declared length, metadata) — a truncated digest of
their rendering — so a second Create with identical parameters returns
the very same id and leaves the uploads directory exactly as the first
left it (one shared backing artifact, no second session). -/
theorem tus_create_deterministic (Hs : String → String) (st : TusState)
    (user l : Nat) (m : Option String) :
    (tus_create_upload Hs (tus_create_upload Hs st user l m).1 user l m).2
      = (tus_create_upload Hs st user l m).2 ∧
    (tus_create_upload Hs (tus_create_upload Hs st user l m).1 user l m).1
      = (tus_create_upload Hs st user l m).1 := by
  by_cases hl : MAX_FILE_SIZE < l
  · have h2 := tus_create_upload_toolarge Hs
      (tus_create_upload Hs st user l m).1 user l m hl
    have h1 := tus_create_upload_toolarge Hs st user l m hl
    rw [h2, h1]
    exact ⟨rfl, rfl⟩
  · have h2 := tus_create_upload_eval Hs
      (tus_create_upload Hs st user l m).1 user l m hl
    have h1 := tus_create_upload_eval Hs st user l m hl
    rw [h2, h1]
    generalize tusUploadId Hs user l m = tid
    refine ⟨rfl, ?_⟩
    funext k
    by_cases hk : k = tid
    · subst hk
      simp
    · simp [hk]

/-- C8 counterexample: two successive TUS Create calls by the same owner
with the same declared length and metadata yield the SAME session id, not
two distinct sessions with distinct backing artifacts. -/
theorem tus_create_id_collision :
    (tus_create_upload hexDigestModel (fun _ => none) 1 5 none).2
      = .ok ("1-5-None", 0) ∧
    (tus_create_upload hexDigestModel
        (tus_create_upload hexDigestModel (fun _ => none) 1 5 none).1
        1 5 none).2
      = .ok ("1-5-None", 0) :=
  ⟨rfl, rfl⟩

/-- Helper: driving `patch_upload` with correct successive offsets over a
nonempty list of nonempty chunks whose lengths sum to exactly the
remaining declared length, on a session whose expected hash equals the
digest of the full resulting byte stream, ends with status COMPLETE, the
artifact moved to its final location, and a `StoredFile` recorded whose
hash is the digest of that byte stream. -/
theorem runChunks_complete (H : List Nat → Nat) (user : Nat) :
    ∀ (chunks : List (List Nat)) (st : DbState) (u : UploadSession),
    st.upload = some u →
    tripUserOk st u user = true →
    (u.status = .PENDING ∨ u.status = .RECEIVING) →
    st.tempBytes.length = u.offset →
    (∀ c ∈ chunks, c ≠ []) →
    chunks ≠ [] →
    u.offset + (chunks.map List.length).sum = u.upload_length →
    u.sha256 = some (H (st.tempBytes ++ chunks.flatten)) →
    sessionStatus (runChunks H user chunks st) = some .COMPLETE ∧
    sessionOffset (runChunks H user chunks st) = u.upload_length ∧
    (runChunks H user chunks st).finalFile
      = some (st.tempBytes ++ chunks.flatten) ∧
    (runChunks H user chunks st).storedFiles
      = st.storedFiles ++
        [mkStoredFile u (H (st.tempBytes ++ chunks.flatten))
          (st.tempBytes ++ chunks.flatten).length] := by
  intro chunks
  induction chunks with
  | nil =>
    intro st u _ _ _ _ _ hnil _ _
    exact absurd rfl hnil
  | cons c cs ih =>
    intro st u hu hown hstat htemp hne _ hsum hsha
    have hc : c ≠ [] := hne c (List.mem_cons_self c cs)
    have hso : sessionOffset st = u.offset := by simp [sessionOffset, hu]
    cases cs with
    | nil =>
      have hfe : u.offset + c.length = u.upload_length := by
        simp [List.map_cons, List.sum_cons] at hsum
        omega
      have hsha2 : u.sha256 = some (H (st.tempBytes ++ c)) := by
        rw [hsha]
        simp [List.flatten]
      have heq := patch_upload_final_ok H st u user c hu hown hstat htemp hc
        (le_of_eq hfe.symm) hsha2
      have hrun : runChunks H user [c] st =
          ({ st with
              upload := some { u with offset := u.offset + c.length,
                                      status := .COMPLETE },
              tempBytes := [],
              finalFile := some (st.tempBytes ++ c),
              storedFiles := st.storedFiles ++
                [mkStoredFile u (H (st.tempBytes ++ c))
                  (st.tempBytes ++ c).length],
              segments := updateSegment st.segments
                { u with offset := u.offset + c.length, status := .RECEIVING }
                (H (st.tempBytes ++ c)) (st.tempBytes ++ c).length }) := by
        show (patch_upload H st user (sessionOffset st) c).1 = _
        rw [hso, heq]
      rw [hrun]
      refine ⟨rfl, hfe, ?_, ?_⟩
      · simp [List.flatten]
      · simp [List.flatten]
    | cons c2 cs2 =>
      have h2pos : 0 < c2.length :=
        List.length_pos.mpr (hne c2 (by simp))
      have hlt : u.offset + c.length < u.upload_length := by
        simp [List.map_cons, List.sum_cons] at hsum
        omega
      have hstep := patch_upload_step H st u user c hu hown hstat htemp hc hlt
      have hrun : runChunks H user (c :: c2 :: cs2) st =
          runChunks H user (c2 :: cs2)
            ({ st with
                upload := some { u with offset := u.offset + c.length,
                                        status := .RECEIVING },
                tempBytes := st.tempBytes ++ c }) := by
        show runChunks H user (c2 :: cs2)
            (patch_upload H st user (sessionOffset st) c).1 = _
        rw [hso, hstep]
      rw [hrun]
      have ihres := ih
        ({ st with
            upload := some { u with offset := u.offset + c.length,
                                    status := .RECEIVING },
            tempBytes := st.tempBytes ++ c })
        { u with offset := u.offset + c.length, status := .RECEIVING }
        rfl hown (Or.inr rfl)
        (by simp [htemp])
        (fun d hd => hne d (List.mem_cons_of_mem c hd))
        (List.cons_ne_nil c2 cs2)
        (by
          show u.offset + c.length + (List.map List.length (c2 :: cs2)).sum
            = u.upload_length
          simp [List.map_cons, List.sum_cons] at hsum ⊢
          omega)
        (by
          show u.sha256 = some (H ((st.tempBytes ++ c) ++ (c2 :: cs2).flatten))
          rw [hsha]
          simp [List.flatten, List.append_assoc])
      obtain ⟨h1, h2, h3, h4⟩ := ihres
      refine ⟨h1, h2, ?_, ?_⟩
      · rw [h3]
        simp [List.flatten, List.append_assoc]
      · rw [h4]
        simp [List.flatten, List.append_assoc, mkStoredFile]

/-- C1 (amended): every sequence of AcceptChunk calls issued with correct
successive offsets and nonempty payloads totaling exactly
`declared_length`, on a fresh session whose expected hash equals the
digest of the concatenated payloads, makes the handler invoke Finalize:
the session ends COMPLETE and the stored artifact's content hash is the
digest of the concatenation of the payload bytes in accepted order. -/
theorem chunks_complete_artifact_hash (H : List Nat → Nat) (user : Nat)
    (st : DbState) (u : UploadSession) (chunks : List (List Nat))
    (hu : st.upload = some u)
    (hown : tripUserOk st u user = true)
    (hfresh : u.status = .PENDING)
    (hoff : u.offset = 0)
    (htemp : st.tempBytes = [])
    (hne : ∀ c ∈ chunks, c ≠ [])
    (hnil : chunks ≠ [])
    (hsum : (chunks.map List.length).sum = u.upload_length)
    (hsha : u.sha256 = some (H chunks.flatten)) :
    sessionStatus (runChunks H user chunks st) = some .COMPLETE ∧
    sessionOffset (runChunks H user chunks st) = u.upload_length ∧
    (runChunks H user chunks st).finalFile = some chunks.flatten ∧
    (runChunks H user chunks st).storedFiles
      = st.storedFiles ++
        [mkStoredFile u (H chunks.flatten) chunks.flatten.length] := by
  have h := runChunks_complete H user chunks st u hu hown (Or.inl hfresh)
    (by rw [htemp, hoff]; rfl) hne hnil
    (by rw [hoff, Nat.zero_add]; exact hsum)
    (by rw [htemp]; simpa using hsha)
  simpa [htemp] using h

/-- C1 witness: two chunks `[1]` and `[2, 3]` on a fresh session of
declared length 3 whose expected hash is the digest of `[1, 2, 3]`;
the run ends COMPLETE with the stored artifact's hash equal to the
digest of the concatenated payloads. -/
theorem chunks_complete_artifact_hash_witness :
    (demoState (some (sha256Model [1, 2, 3])) 3 0 .PENDING []).upload
      = some (demoSession (some (sha256Model [1, 2, 3])) 3 0 .PENDING) ∧
    sessionStatus (runChunks sha256Model 1 [[1], [2, 3]]
        (demoState (some (sha256Model [1, 2, 3])) 3 0 .PENDING []))
      = some .COMPLETE ∧
    (runChunks sha256Model 1 [[1], [2, 3]]
        (demoState (some (sha256Model [1, 2, 3])) 3 0 .PENDING [])).storedFiles
      = [mkStoredFile (demoSession (some (sha256Model [1, 2, 3])) 3 0 .PENDING)
          (sha256Model [1, 2, 3]) 3] := by
  have h := chunks_complete_artifact_hash sha256Model 1
    (demoState (some (sha256Model [1, 2, 3])) 3 0 .PENDING [])
    (demoSession (some (sha256Model [1, 2, 3])) 3 0 .PENDING)
    [[1], [2, 3]] rfl rfl rfl rfl rfl (by decide) (by decide) rfl rfl
  exact ⟨rfl, h.1, h.2.2.2⟩

/-- C1 counterexample: a sequence of AcceptChunk calls with correct
offsets totaling exactly `declared_length` whose stored expected hash
differs from the payload digest ends FAILED with no stored artifact —
not COMPLETE as the claim states for every such sequence. -/
theorem chunks_need_matching_expected_hash :
    (demoSession (some 0) 1 0 .PENDING).sha256 = some 0 ∧
    sessionStatus (runChunks sha256Model 1 [[0]]
        (demoState (some 0) 1 0 .PENDING [])) = some .FAILED ∧
    (runChunks sha256Model 1 [[0]]
        (demoState (some 0) 1 0 .PENDING [])).storedFiles = [] :=
  ⟨rfl, rfl, rfl⟩
